import Mathlib

/-!
Verification development for the Account Balance Calculation API
(Express endpoint POST /calculate-balance).

The embedding models:
- JSON request bodies (Json);
- the express-validator chains of calculateBalanceValidation, including
  the library's coercion of values to strings before testing them (so a
  one-element array is tested on its sole element's rendering, an object
  renders as a non-numeric tag, and a missing field renders empty);
- the route handler: validation errors yield a 400 response, the Decimal
  fold over the transactions yields a 200 response or, when the Decimal
  constructor throws, a 500 response;
- a pure transaction layer (Txn) for the arithmetic laws.

Decimal.js values are modelled as exact rationals; the source converts
the exact accumulated value to a JS number only at the response boundary
(the documented output precision boundary), which is outside this model.
Number-valued JSON fields are assumed to render in plain decimal
notation, and the model of string parsing covers the plain-decimal
grammar, the only forms reachable past validation (Decimal.js would also
accept exponent or radix-prefixed strings).
-/

namespace OneAccounting

/-- JSON values as delivered by the body parser. `null` also stands for
an absent field (both render empty and fail the Decimal constructor). -/
inductive Json where
  | null : Json
  | bool : Bool → Json
  | num : ℚ → Json
  | str : String → Json
  | arr : List Json → Json
  | obj : List (String × Json) → Json

/-- Property access on an object, `Json.null` when absent (undefined). -/
def lookupField (k : String) : List (String × Json) → Json
  | [] => .null
  | (k', v) :: rest => if k' = k then v else lookupField k rest

/-- JS property access `body[k]`: undefined (modelled as null) on
non-objects and missing keys. -/
def getField : Json → String → Json
  | .obj fs, k => lookupField k fs
  | _, _ => .null

/-- Sign/integer-part/fraction-part decomposition of a decimal string. -/
structure DecParts where
  neg : Bool
  ipart : List Char
  fpart : List Char
  hasDot : Bool

/-- Consume an optional leading sign. -/
def readSign : List Char → Bool × List Char
  | '-' :: cs => (true, cs)
  | '+' :: cs => (false, cs)
  | cs => (false, cs)

/-- Split a string of shape sign? digits* (dot digits*)? into its parts;
none when any other character occurs. -/
def splitParts (cs : List Char) : Option DecParts :=
  let sp := readSign cs
  let d1 := sp.2.span Char.isDigit
  match d1.2 with
  | [] => some ⟨sp.1, d1.1, [], false⟩
  | '.' :: r2 =>
    let d2 := r2.span Char.isDigit
    if d2.2.isEmpty then some ⟨sp.1, d1.1, d2.1, true⟩ else none
  | _ => none

/-- Value of a digit string. -/
def digitsToNat (cs : List Char) : ℕ :=
  cs.foldl (fun acc c => acc * 10 + (c.toNat - 48)) 0

/-- Exact rational value of a decomposed decimal string. -/
def partsVal (p : DecParts) : ℚ :=
  (if p.neg then -1 else 1) *
    ((digitsToNat p.ipart : ℚ) + (digitsToNat p.fpart : ℚ) / (10 : ℚ) ^ p.fpart.length)

/-- validator.js isNumeric: sign? digits* (dot digits+)? with at least
one digit, digits after the dot mandatory when the dot occurs. -/
def isNumericStr (s : String) : Bool :=
  match splitParts s.data with
  | some p => if p.hasDot then !p.fpart.isEmpty else !p.ipart.isEmpty
  | none => false

/-- validator.js isFloat with min 0: a decimal string with at least one
digit whose parsed value is non-negative. -/
def floatMin0Str (s : String) : Bool :=
  match splitParts s.data with
  | some p => (!p.ipart.isEmpty || !p.fpart.isEmpty) && decide (0 ≤ partsVal p)
  | none => false

/-- express-validator isNumeric on a raw value: numbers pass, strings
are tested against the numeric grammar, a one-element array is coerced
to its element's rendering, everything else renders non-numeric. -/
def isNumericVal : Json → Bool
  | .num _ => true
  | .str s => isNumericStr s
  | .arr [x] => isNumericVal x
  | _ => false

/-- express-validator isFloat (min 0) on a raw value. -/
def floatMin0Val : Json → Bool
  | .num q => decide (0 ≤ q)
  | .str s => floatMin0Str s
  | .arr [x] => floatMin0Val x
  | _ => false

/-- express-validator isIn(credit, debit) on a raw value (after the
library's string coercion). -/
def isInCreditDebit : Json → Bool
  | .str s => s == "credit" || s == "debit"
  | .arr [x] => isInCreditDebit x
  | _ => false

/-- express-validator notEmpty: the value's string rendering is
non-empty (missing renders empty, an array joins its elements). -/
def notEmptyVal : Json → Bool
  | .null => false
  | .str s => !s.isEmpty
  | .arr [] => false
  | .arr [x] => notEmptyVal x
  | .arr (_ :: _ :: _) => true
  | _ => true

/-- express-validator isArray: a genuine array check on the raw value. -/
def isArrayVal : Json → Bool
  | .arr _ => true
  | _ => false

/-- A validation error record: field path and message. -/
abbrev FieldError := String × String

/-- One validator of a chain: no error when the check passes. -/
def fieldCheckErrs (path : String) (ok : Bool) (msg : String) : List FieldError :=
  if ok then [] else [(path, msg)]

/-- Wildcard expansion over an array: path suffixes with indices. -/
def arrItems : ℕ → List Json → List (String × Json)
  | _, [] => []
  | i, x :: xs => ("[" ++ toString i ++ "]", x) :: arrItems (i + 1) xs

/-- Wildcard expansion of transactions.*: arrays by index, objects by
key, nothing otherwise (missing or scalar fields expand to nothing). -/
def wildcardItems : Json → List (String × Json)
  | .arr xs => arrItems 0 xs
  | .obj fs => fs.map (fun p => ("." ++ p.1, p.2))
  | _ => []

/-- Errors of the transactions.*.type chain for one element. -/
def typeErrs (suffix : String) (t : Json) : List FieldError :=
  fieldCheckErrs ("transactions" ++ suffix ++ ".type")
    (isInCreditDebit (getField t "type"))
    "Transaction type must be either \"credit\" or \"debit\""

/-- Errors of the transactions.*.amount chain for one element: both
validators of the chain run, each contributing its own error. -/
def amountErrs (suffix : String) (t : Json) : List FieldError :=
  fieldCheckErrs ("transactions" ++ suffix ++ ".amount")
    (isNumericVal (getField t "amount"))
    "Transaction amount must be a number"
  ++ fieldCheckErrs ("transactions" ++ suffix ++ ".amount")
    (floatMin0Val (getField t "amount"))
    "Transaction amount must be a non-negative number"

/-- Concatenation of per-item error lists. -/
def flatErrs (f : String × Json → List FieldError) : List (String × Json) → List FieldError
  | [] => []
  | e :: rest => f e ++ flatErrs f rest

/-- The calculateBalanceValidation chains, in source order: the
initialBalance chain, the transactions chain (isArray then notEmpty,
both always run), then the two wildcard chains over the elements. -/
def calculateBalanceValidation (body : Json) : List FieldError :=
  fieldCheckErrs "initialBalance" (isNumericVal (getField body "initialBalance"))
    "initialBalance must be a number"
  ++ fieldCheckErrs "transactions" (isArrayVal (getField body "transactions"))
    "transactions must be an array"
  ++ fieldCheckErrs "transactions" (notEmptyVal (getField body "transactions"))
    "transactions array cannot be empty"
  ++ flatErrs (fun e => typeErrs e.1 e.2) (wildcardItems (getField body "transactions"))
  ++ flatErrs (fun e => amountErrs e.1 e.2) (wildcardItems (getField body "transactions"))

/-- The Decimal constructor: exact on numbers, parses plain decimal
strings, throws (an error value) on anything else. -/
def newDecimal : Json → Except String ℚ
  | .num q => .ok q
  | .str s =>
    match splitParts s.data with
    | some p =>
      if !p.ipart.isEmpty || !p.fpart.isEmpty then .ok (partsVal p)
      else .error ("[DecimalError] Invalid argument: " ++ s)
    | none => .error ("[DecimalError] Invalid argument: " ++ s)
  | _ => .error "[DecimalError] Invalid argument"

/-- JS strict equality of a value against a string literal. -/
def isStrEq (v : Json) (s : String) : Bool :=
  match v with
  | .str t => t == s
  | _ => false

/-- The loop body: the amount goes through the Decimal constructor
first, then credit adds, debit subtracts, anything else is skipped. -/
def applyTxn (bal : ℚ) (t : Json) : Except String ℚ :=
  match newDecimal (getField t "amount") with
  | .error e => .error e
  | .ok amt =>
    if isStrEq (getField t "type") "credit" then .ok (bal + amt)
    else if isStrEq (getField t "type") "debit" then .ok (bal - amt)
    else .ok bal

/-- The for-of loop over the transactions array. -/
def runTxnsJson (bal : ℚ) : List Json → Except String ℚ
  | [] => .ok bal
  | t :: rest =>
    match applyTxn bal t with
    | .error e => .error e
    | .ok b2 => runTxnsJson b2 rest

/-- The try-block: Decimal of the initial balance, then the loop.
Iterating a non-array throws (unreachable past validation). -/
def computeBalance (body : Json) : Except String ℚ :=
  match newDecimal (getField body "initialBalance") with
  | .error e => .error e
  | .ok bal0 =>
    match getField body "transactions" with
    | .arr txs => runTxnsJson bal0 txs
    | _ => .error "transactions is not iterable"

/-- Status from the sign of the final balance: 1 when non-negative,
2 when negative. -/
def statusOf (bal : ℚ) : ℕ := if 0 ≤ bal then 1 else 2

/-- The three response shapes of the endpoint. The ok payload keeps the
exact accumulated value (the source renders it as a JS number only at
the output boundary). -/
inductive Response where
  | ok (finalBalance : ℚ) (status : ℕ)
  | badRequest (error : String) (details : List FieldError)
  | serverError (error : String) (message : String)
deriving DecidableEq, Repr

/-- The POST /calculate-balance handler: handleValidationErrors rejects
with status 400 before the try-block runs; the try-block's result is the
200 response, a thrown error the 500 response. -/
def postCalculateBalance (body : Json) : Response :=
  if (calculateBalanceValidation body).isEmpty then
    match computeBalance body with
    | .ok bal => .ok bal (statusOf bal)
    | .error msg => .serverError "Internal server error" msg
  else .badRequest "Validation failed" (calculateBalanceValidation body)

/-- A transaction record of the data model: a type tag and an exact
amount (the shape the loop destructures). -/
structure Txn where
  type : String
  amount : ℚ
deriving DecidableEq, Repr

/-- The loop body on a record whose amount is already a decimal. -/
def applyTx (bal : ℚ) (t : Txn) : ℚ :=
  if t.type = "credit" then bal + t.amount
  else if t.type = "debit" then bal - t.amount
  else bal

/-- The whole loop, strictly in list order. -/
def runTxns (bal : ℚ) (txs : List Txn) : ℚ := txs.foldl applyTx bal

/-- Net effect of one transaction on the running balance. -/
def txnDelta (t : Txn) : ℚ :=
  if t.type = "credit" then t.amount
  else if t.type = "debit" then -t.amount
  else 0

/-- Sum of the credit amounts. -/
def sumCredits (txs : List Txn) : ℚ :=
  ((txs.filter (fun t => t.type == "credit")).map Txn.amount).sum

/-- Sum of the debit amounts. -/
def sumDebits (txs : List Txn) : ℚ :=
  ((txs.filter (fun t => t.type == "debit")).map Txn.amount).sum

/-- Pointwise inverse: swap credit and debit, keep the amount. -/
def invTx (t : Txn) : Txn :=
  if t.type = "credit" then ⟨"debit", t.amount⟩
  else if t.type = "debit" then ⟨"credit", t.amount⟩
  else t

/-- JSON encoding of a transaction record. -/
def Txn.toJson (t : Txn) : Json :=
  .obj [("type", .str t.type), ("amount", .num t.amount)]

/-- JSON encoding of a request with a numeric initial balance. -/
def requestJson (init : ℚ) (txs : List Txn) : Json :=
  .obj [("initialBalance", .num init), ("transactions", .arr (txs.map Txn.toJson))]

/-- A request carrying numeric strings: initial balance "100" and one
credit of amount "50.5". -/
def stringBody : Json :=
  .obj [("initialBalance", .str "100"),
        ("transactions", .arr [.obj [("type", .str "credit"), ("amount", .str "50.5")]])]

/-- A request passing validation whose initial balance is a one-element
array: the validator coerces it to the rendering of its element (a
numeric string), but the Decimal constructor throws on the array. -/
def arrayBalanceBody : Json :=
  .obj [("initialBalance", .arr [.num 100]),
        ("transactions", .arr [.obj [("type", .str "credit"), ("amount", .num 5)]])]

/-- A request violating several validation rules at once: a non-numeric
initial balance, an unrecognized transaction type and a negative amount. -/
def multiViolationBody : Json :=
  .obj [("initialBalance", .str "abc"),
        ("transactions", .arr [.obj [("type", .str "transfer"), ("amount", .num (-5))]])]

/-- The spec's characterization of a request that violates none of the
validation rules, phrased over the source's field checks: a numeric
initial balance and a non-empty transactions array whose every element
has a recognized type and a numeric, non-negative amount. -/
def validShape (body : Json) : Prop :=
  isNumericVal (getField body "initialBalance") = true ∧
  ∃ xs, getField body "transactions" = .arr xs ∧ xs ≠ [] ∧
    ∀ t ∈ xs, isInCreditDebit (getField t "type") = true ∧
      isNumericVal (getField t "amount") = true ∧
      floatMin0Val (getField t "amount") = true

/-! ## Lemmas on the pure transaction layer -/

theorem applyTx_eq_delta (bal : ℚ) (t : Txn) : applyTx bal t = bal + txnDelta t := by
  unfold applyTx txnDelta
  split_ifs <;> ring

theorem runTxns_nil (bal : ℚ) : runTxns bal [] = bal := rfl

theorem runTxns_cons (bal : ℚ) (t : Txn) (rest : List Txn) :
    runTxns bal (t :: rest) = runTxns (applyTx bal t) rest := rfl

theorem runTxns_delta (txs : List Txn) :
    ∀ bal : ℚ, runTxns bal txs = bal + (txs.map txnDelta).sum := by
  induction txs with
  | nil => intro bal; simp [runTxns]
  | cons t rest ih =>
    intro bal
    rw [runTxns_cons, ih, applyTx_eq_delta]
    simp [add_assoc]

theorem delta_eq_credits_sub_debits (txs : List Txn) :
    (txs.map txnDelta).sum = sumCredits txs - sumDebits txs := by
  induction txs with
  | nil => simp [sumCredits, sumDebits]
  | cons t rest ih =>
    by_cases h1 : t.type = "credit"
    · have h2 : (t.type == "debit") = false := by simp [h1]
      simp [sumCredits, sumDebits, List.filter_cons, h1, h2, txnDelta] at *
      rw [ih]; ring
    · by_cases h2 : t.type = "debit"
      · have h1' : (t.type == "credit") = false := by simp [h2]
        simp [sumCredits, sumDebits, List.filter_cons, h1, h2, h1', txnDelta] at *
        rw [ih]; ring
      · have h1' : (t.type == "credit") = false := by simp [h1]
        have h2' : (t.type == "debit") = false := by simp [h2]
        simp [sumCredits, sumDebits, List.filter_cons, h1, h2, h1', h2', txnDelta] at *
        rw [ih]

theorem runTxns_closed (bal : ℚ) (txs : List Txn) :
    runTxns bal txs = bal + sumCredits txs - sumDebits txs := by
  rw [runTxns_delta, delta_eq_credits_sub_debits]; ring

theorem delta_invTx (t : Txn) : txnDelta (invTx t) = -txnDelta t := by
  by_cases h1 : t.type = "credit"
  · simp [invTx, txnDelta, h1]
  · by_cases h2 : t.type = "debit"
    · simp [invTx, txnDelta, h1, h2]
    · simp [invTx, txnDelta, h1, h2]

/-! ## Lemmas connecting the JSON layer to the pure layer -/

theorem getField_requestJson_init (init : ℚ) (txs : List Txn) :
    getField (requestJson init txs) "initialBalance" = .num init := by
  simp [requestJson, getField, lookupField]

theorem getField_requestJson_txns (init : ℚ) (txs : List Txn) :
    getField (requestJson init txs) "transactions" = .arr (txs.map Txn.toJson) := by
  simp [requestJson, getField, lookupField]

theorem getField_toJson_type (t : Txn) : getField (Txn.toJson t) "type" = .str t.type := by
  simp [Txn.toJson, getField, lookupField]

theorem getField_toJson_amount (t : Txn) : getField (Txn.toJson t) "amount" = .num t.amount := by
  simp [Txn.toJson, getField, lookupField]

theorem applyTxn_toJson (bal : ℚ) (t : Txn) :
    applyTxn bal (Txn.toJson t) = .ok (applyTx bal t) := by
  unfold applyTxn
  rw [getField_toJson_amount, getField_toJson_type]
  simp only [newDecimal, isStrEq, applyTx]
  by_cases h1 : t.type = "credit"
  · simp [h1]
  · by_cases h2 : t.type = "debit" <;> simp [h1, h2]

theorem runTxnsJson_toJson (txs : List Txn) :
    ∀ bal : ℚ, runTxnsJson bal (txs.map Txn.toJson) = .ok (runTxns bal txs) := by
  induction txs with
  | nil => intro bal; rfl
  | cons t rest ih =>
    intro bal
    simp only [List.map_cons, runTxnsJson, applyTxn_toJson, runTxns_cons, ih]

theorem computeBalance_requestJson (init : ℚ) (txs : List Txn) :
    computeBalance (requestJson init txs) = .ok (runTxns init txs) := by
  simp only [computeBalance, getField_requestJson_init, getField_requestJson_txns,
    newDecimal, runTxnsJson_toJson]

/-! ## Lemmas on the validator -/

theorem fieldCheckErrs_nil (path msg : String) {ok : Bool} (h : ok = true) :
    fieldCheckErrs path ok msg = [] := by
  simp [fieldCheckErrs, h]

theorem fieldCheckErrs_eq_nil_iff (path msg : String) (ok : Bool) :
    fieldCheckErrs path ok msg = [] ↔ ok = true := by
  cases ok <;> simp [fieldCheckErrs]

theorem fieldCheckErrs_mem (path msg : String) {ok : Bool} (h : ok = false) :
    (path, msg) ∈ fieldCheckErrs path ok msg := by
  simp [fieldCheckErrs, h]

theorem flatErrs_nil {f : String × Json → List FieldError} :
    ∀ {l : List (String × Json)}, (∀ e ∈ l, f e = []) → flatErrs f l = [] := by
  intro l
  induction l with
  | nil => intro _; rfl
  | cons e rest ih =>
    intro h
    simp only [flatErrs, h e (by simp), List.nil_append]
    exact ih (fun x hx => h x (by simp [hx]))

theorem flatErrs_eq_nil_iff {f : String × Json → List FieldError} :
    ∀ {l : List (String × Json)}, flatErrs f l = [] ↔ ∀ e ∈ l, f e = [] := by
  intro l
  induction l with
  | nil => simp [flatErrs]
  | cons e rest ih =>
    simp only [flatErrs, List.append_eq_nil, ih, List.mem_cons]
    constructor
    · rintro ⟨h1, h2⟩ x (rfl | hx)
      · exact h1
      · exact h2 x hx
    · intro h
      exact ⟨h e (Or.inl rfl), fun x hx => h x (Or.inr hx)⟩

theorem flatErrs_mem {f : String × Json → List FieldError} {x : FieldError} :
    ∀ {l : List (String × Json)} {e : String × Json},
      e ∈ l → x ∈ f e → x ∈ flatErrs f l := by
  intro l
  induction l with
  | nil => intro e he; cases he
  | cons a rest ih =>
    intro e he hx
    rcases List.mem_cons.mp he with rfl | he'
    · exact List.mem_append_left _ hx
    · exact List.mem_append_right _ (ih he' hx)

theorem arrItems_snd_mem {e : String × Json} :
    ∀ {xs : List Json} {i : ℕ}, e ∈ arrItems i xs → e.2 ∈ xs := by
  intro xs
  induction xs with
  | nil => intro i h; cases h
  | cons x rest ih =>
    intro i h
    rcases List.mem_cons.mp h with rfl | h'
    · simp
    · exact List.mem_cons_of_mem _ (ih h')

theorem mem_arrItems_of_mem {t : Json} :
    ∀ {xs : List Json}, t ∈ xs → ∀ i : ℕ, ∃ s, (s, t) ∈ arrItems i xs := by
  intro xs
  induction xs with
  | nil => intro h; cases h
  | cons x rest ih =>
    intro h i
    rcases List.mem_cons.mp h with rfl | h'
    · exact ⟨"[" ++ toString i ++ "]", by simp [arrItems]⟩
    · obtain ⟨s, hs⟩ := ih h' (i + 1)
      exact ⟨s, by simp [arrItems, hs]⟩

theorem notEmptyVal_arr_cons {x : Json} (xs : List Json) (hx : notEmptyVal x = true) :
    notEmptyVal (.arr (x :: xs)) = true := by
  cases xs <;> simp [notEmptyVal, hx]

theorem notEmptyVal_of_isIn {t : Json}
    (h : isInCreditDebit (getField t "type") = true) : notEmptyVal t = true := by
  cases t <;> simp [getField, isInCreditDebit, notEmptyVal] at h ⊢

theorem valid_requestJson (init : ℚ) (txs : List Txn) (hne : txs ≠ [])
    (hv : ∀ t ∈ txs, (t.type = "credit" ∨ t.type = "debit") ∧ 0 ≤ t.amount) :
    calculateBalanceValidation (requestJson init txs) = [] := by
  have htype : ∀ t ∈ txs, isInCreditDebit (getField (Txn.toJson t) "type") = true := by
    intro t ht
    have := (hv t ht).1
    rcases this with h | h <;> simp [Txn.toJson, getField, lookupField, isInCreditDebit, h]
  have hamt : ∀ t ∈ txs, isNumericVal (getField (Txn.toJson t) "amount") = true ∧
      floatMin0Val (getField (Txn.toJson t) "amount") = true := by
    intro t ht
    have := (hv t ht).2
    constructor <;> simp [Txn.toJson, getField, lookupField, isNumericVal, floatMin0Val, this]
  unfold calculateBalanceValidation
  rw [getField_requestJson_init, getField_requestJson_txns]
  have h3 : notEmptyVal (.arr (txs.map Txn.toJson)) = true := by
    cases txs with
    | nil => exact absurd rfl hne
    | cons t rest =>
      simp only [List.map_cons]
      exact notEmptyVal_arr_cons _ (notEmptyVal_of_isIn (htype t (by simp)))
  have h4 : flatErrs (fun e => typeErrs e.1 e.2) (wildcardItems (.arr (txs.map Txn.toJson))) = [] := by
    apply flatErrs_nil
    intro e he
    obtain ⟨t, ht, he2⟩ := List.mem_map.mp (arrItems_snd_mem he)
    exact fieldCheckErrs_nil _ _ (he2 ▸ htype t ht)
  have h5 : flatErrs (fun e => amountErrs e.1 e.2) (wildcardItems (.arr (txs.map Txn.toJson))) = [] := by
    apply flatErrs_nil
    intro e he
    obtain ⟨t, ht, he2⟩ := List.mem_map.mp (arrItems_snd_mem he)
    simp only [amountErrs]
    rw [fieldCheckErrs_nil _ _ (he2 ▸ (hamt t ht).1), fieldCheckErrs_nil _ _ (he2 ▸ (hamt t ht).2)]
    rfl
  rw [fieldCheckErrs_nil _ _ (show isNumericVal (.num init) = true from rfl),
    fieldCheckErrs_nil _ _ (show isArrayVal (.arr (txs.map Txn.toJson)) = true from rfl),
    fieldCheckErrs_nil _ _ h3, h4, h5]
  rfl

theorem post_requestJson (init : ℚ) (txs : List Txn) (hne : txs ≠ [])
    (hv : ∀ t ∈ txs, (t.type = "credit" ∨ t.type = "debit") ∧ 0 ≤ t.amount) :
    postCalculateBalance (requestJson init txs) =
      .ok (runTxns init txs) (statusOf (runTxns init txs)) := by
  unfold postCalculateBalance
  rw [valid_requestJson init txs hne hv, computeBalance_requestJson]
  rfl

theorem validation_eq_nil_iff (body : Json) :
    calculateBalanceValidation body = [] ↔ validShape body := by
  constructor
  · intro h
    simp only [calculateBalanceValidation, List.append_eq_nil] at h
    obtain ⟨⟨⟨⟨h1, h2⟩, h3⟩, h4⟩, h5⟩ := h
    rw [fieldCheckErrs_eq_nil_iff] at h1 h2 h3
    refine ⟨h1, ?_⟩
    cases hts : getField body "transactions" with
    | arr xs =>
      rw [hts] at h3 h4 h5
      refine ⟨xs, rfl, ?_, ?_⟩
      · intro hxs
        rw [hxs] at h3
        exact absurd h3 (by simp [notEmptyVal])
      · intro t ht
        obtain ⟨s, hs⟩ := mem_arrItems_of_mem ht 0
        have ht4 := flatErrs_eq_nil_iff.mp h4 (s, t) hs
        have ht5 := flatErrs_eq_nil_iff.mp h5 (s, t) hs
        simp only [typeErrs, fieldCheckErrs_eq_nil_iff] at ht4
        simp only [amountErrs, List.append_eq_nil, fieldCheckErrs_eq_nil_iff] at ht5
        exact ⟨ht4, ht5.1, ht5.2⟩
    | null => rw [hts] at h2; exact absurd h2 (by simp [isArrayVal])
    | bool b => rw [hts] at h2; exact absurd h2 (by simp [isArrayVal])
    | num q => rw [hts] at h2; exact absurd h2 (by simp [isArrayVal])
    | str s => rw [hts] at h2; exact absurd h2 (by simp [isArrayVal])
    | obj fs => rw [hts] at h2; exact absurd h2 (by simp [isArrayVal])
  · rintro ⟨h1, xs, hts, hne, hel⟩
    unfold calculateBalanceValidation
    rw [hts]
    have hnel : notEmptyVal (.arr xs) = true := by
      cases xs with
      | nil => exact absurd rfl hne
      | cons x rest => exact notEmptyVal_arr_cons _ (notEmptyVal_of_isIn (hel x (by simp)).1)
    have h4 : flatErrs (fun e => typeErrs e.1 e.2) (wildcardItems (.arr xs)) = [] := by
      apply flatErrs_nil
      intro e he
      simp only [typeErrs]
      exact fieldCheckErrs_nil _ _ (hel e.2 (arrItems_snd_mem he)).1
    have h5 : flatErrs (fun e => amountErrs e.1 e.2) (wildcardItems (.arr xs)) = [] := by
      apply flatErrs_nil
      intro e he
      simp only [amountErrs]
      rw [fieldCheckErrs_nil _ _ (hel e.2 (arrItems_snd_mem he)).2.1,
        fieldCheckErrs_nil _ _ (hel e.2 (arrItems_snd_mem he)).2.2]
      rfl
    rw [fieldCheckErrs_nil _ _ h1,
      fieldCheckErrs_nil _ _ (show isArrayVal (.arr xs) = true from rfl),
      fieldCheckErrs_nil _ _ hnel, h4, h5]
    rfl

theorem post_badRequest_of_errors (body : Json)
    (h : calculateBalanceValidation body ≠ []) :
    postCalculateBalance body = .badRequest "Validation failed" (calculateBalanceValidation body) := by
  unfold postCalculateBalance
  rw [if_neg]
  simp [List.isEmpty_iff, h]

theorem post_not_badRequest_of_no_errors (body : Json)
    (h : calculateBalanceValidation body = []) :
    ∀ e d, postCalculateBalance body ≠ .badRequest e d := by
  intro e d
  unfold postCalculateBalance
  rw [h]
  cases hcb : computeBalance body <;> simp

/-! ## The claims -/

/-- Claim C1: for every valid request (numeric initial balance, non-empty
transaction list, every type credit or debit, every amount numeric and
non-negative), the final balance returned by POST /calculate-balance is
the initial balance plus the sum of the credit amounts minus the sum of
the debit amounts, under exact decimal accumulation. -/
theorem balance_sum_invariant (init : ℚ) (txs : List Txn) (hne : txs ≠ [])
    (hv : ∀ t ∈ txs, (t.type = "credit" ∨ t.type = "debit") ∧ 0 ≤ t.amount) :
    postCalculateBalance (requestJson init txs) =
      .ok (init + sumCredits txs - sumDebits txs)
        (statusOf (init + sumCredits txs - sumDebits txs)) := by
  rw [post_requestJson init txs hne hv, runTxns_closed]

theorem balance_sum_invariant_check :
    postCalculateBalance (requestJson 1000 [⟨"credit", 500⟩, ⟨"credit", 200⟩]) =
      .ok 1700 1 := by
  have h := balance_sum_invariant 1000 [⟨"credit", 500⟩, ⟨"credit", 200⟩] (by simp)
    (by intro t ht; simp only [List.mem_cons, List.not_mem_nil, or_false] at ht
        rcases ht with rfl | rfl <;> exact ⟨Or.inl rfl, by norm_num⟩)
  have hc : sumCredits [⟨"credit", 500⟩, ⟨"credit", 200⟩] = 700 := by
    simp [sumCredits, List.filter_cons]
    norm_num
  have hd : sumDebits [⟨"credit", 500⟩, ⟨"credit", 200⟩] = 0 := by
    simp [sumDebits, List.filter_cons]
  rw [h, hc, hd]
  norm_num [statusOf]

/-- Claim C2: whenever POST /calculate-balance answers with a result, the
status is 2 exactly when the final balance is strictly negative, and 1
exactly when it is at least zero; zero is classified as 1 (normal). -/
theorem status_classification (body : Json) (f : ℚ) (s : ℕ)
    (h : postCalculateBalance body = .ok f s) :
    (s = 2 ↔ f < 0) ∧ (s = 1 ↔ 0 ≤ f) := by
  unfold postCalculateBalance at h
  by_cases he : (calculateBalanceValidation body).isEmpty
  · rw [if_pos he] at h
    cases hcb : computeBalance body with
    | ok bal =>
      rw [hcb] at h
      injection h with h1 h2
      subst h1
      subst h2
      unfold statusOf
      by_cases hb : 0 ≤ bal
      · rw [if_pos hb]
        refine ⟨⟨fun h12 => absurd h12 (by norm_num), fun hlt => absurd hlt (not_lt.mpr hb)⟩,
          fun _ => hb, fun _ => rfl⟩
      · rw [if_neg hb]
        push_neg at hb
        refine ⟨⟨fun _ => hb, fun _ => rfl⟩,
          fun h21 => absurd h21 (by norm_num), fun hge => absurd hge (not_le.mpr hb)⟩
    | error msg => rw [hcb] at h; simp at h
  · rw [if_neg he] at h
    simp at h

theorem status_classification_check :
    ((2 : ℕ) = 2 ↔ (-500 : ℚ) < 0) ∧ ((2 : ℕ) = 1 ↔ (0 : ℚ) ≤ -500) := by
  have h : postCalculateBalance (requestJson 1000 [⟨"debit", 1500⟩]) = .ok (-500) 2 := by
    rw [post_requestJson 1000 [⟨"debit", 1500⟩] (by simp)
      (by intro t ht; simp only [List.mem_cons, List.not_mem_nil, or_false] at ht
          subst ht; exact ⟨Or.inr rfl, by norm_num⟩)]
    norm_num [runTxns, applyTx, statusOf]
    decide
  exact status_classification _ _ _ h

/-- Claim C3: the validator rejects exactly the enumerated violations
(missing or non-numeric initial balance; missing, non-array or empty
transactions; a type outside credit/debit; a missing, negative or
non-numeric amount), answering 400 with error Validation failed, and on
a request with none of these violations it accepts and the computation
proceeds (the response is never a 400). -/
theorem validation_contract (body : Json) :
    (calculateBalanceValidation body = [] ↔ validShape body) ∧
    (calculateBalanceValidation body ≠ [] →
      postCalculateBalance body =
        .badRequest "Validation failed" (calculateBalanceValidation body)) ∧
    (calculateBalanceValidation body = [] →
      ∀ e d, postCalculateBalance body ≠ .badRequest e d) :=
  ⟨validation_eq_nil_iff body, post_badRequest_of_errors body,
    post_not_badRequest_of_no_errors body⟩

theorem validation_contract_check :
    postCalculateBalance (Json.obj []) =
      .badRequest "Validation failed" (calculateBalanceValidation (Json.obj [])) :=
  (validation_contract (Json.obj [])).2.1 (by decide)

/-- Claim C4: a request violating several validation rules is answered
with details naming every violated field, not only the first, and the
rejection happens in the validation middleware, before the balance
computation runs. -/
theorem validation_details_complete (body : Json) :
    (calculateBalanceValidation body ≠ [] →
      postCalculateBalance body =
        .badRequest "Validation failed" (calculateBalanceValidation body)) ∧
    (isNumericVal (getField body "initialBalance") = false →
      ("initialBalance", "initialBalance must be a number") ∈ calculateBalanceValidation body) ∧
    (isArrayVal (getField body "transactions") = false →
      ("transactions", "transactions must be an array") ∈ calculateBalanceValidation body) ∧
    (notEmptyVal (getField body "transactions") = false →
      ("transactions", "transactions array cannot be empty") ∈ calculateBalanceValidation body) ∧
    (∀ suffix t, (suffix, t) ∈ wildcardItems (getField body "transactions") →
      (isInCreditDebit (getField t "type") = false →
        ("transactions" ++ suffix ++ ".type",
          "Transaction type must be either \"credit\" or \"debit\"") ∈ calculateBalanceValidation body) ∧
      (isNumericVal (getField t "amount") = false →
        ("transactions" ++ suffix ++ ".amount",
          "Transaction amount must be a number") ∈ calculateBalanceValidation body) ∧
      (floatMin0Val (getField t "amount") = false →
        ("transactions" ++ suffix ++ ".amount",
          "Transaction amount must be a non-negative number") ∈ calculateBalanceValidation body)) := by
  refine ⟨post_badRequest_of_errors body, ?_, ?_, ?_, ?_⟩
  · intro h
    unfold calculateBalanceValidation
    exact List.mem_append_left _ (List.mem_append_left _ (List.mem_append_left _
      (List.mem_append_left _ (fieldCheckErrs_mem _ _ h))))
  · intro h
    unfold calculateBalanceValidation
    exact List.mem_append_left _ (List.mem_append_left _ (List.mem_append_left _
      (List.mem_append_right _ (fieldCheckErrs_mem _ _ h))))
  · intro h
    unfold calculateBalanceValidation
    exact List.mem_append_left _ (List.mem_append_left _
      (List.mem_append_right _ (fieldCheckErrs_mem _ _ h)))
  · intro suffix t hmem
    refine ⟨?_, ?_, ?_⟩
    · intro h
      unfold calculateBalanceValidation
      refine List.mem_append_left _ (List.mem_append_right _ (flatErrs_mem hmem ?_))
      simp only [typeErrs]
      exact fieldCheckErrs_mem _ _ h
    · intro h
      unfold calculateBalanceValidation
      refine List.mem_append_right _ (flatErrs_mem hmem ?_)
      simp only [amountErrs]
      exact List.mem_append_left _ (fieldCheckErrs_mem _ _ h)
    · intro h
      unfold calculateBalanceValidation
      refine List.mem_append_right _ (flatErrs_mem hmem ?_)
      simp only [amountErrs]
      exact List.mem_append_right _ (fieldCheckErrs_mem _ _ h)

theorem validation_details_complete_check :
    ("initialBalance", "initialBalance must be a number")
        ∈ calculateBalanceValidation multiViolationBody ∧
    ("transactions[0].type", "Transaction type must be either \"credit\" or \"debit\"")
        ∈ calculateBalanceValidation multiViolationBody ∧
    ("transactions[0].amount", "Transaction amount must be a non-negative number")
        ∈ calculateBalanceValidation multiViolationBody := by
  have hmem : ("[0]", Json.obj [("type", Json.str "transfer"), ("amount", Json.num (-5))])
      ∈ wildcardItems (getField multiViolationBody "transactions") :=
    List.mem_singleton.mpr rfl
  have h := (validation_details_complete multiViolationBody).2.2.2.2 "[0]"
    (Json.obj [("type", Json.str "transfer"), ("amount", Json.num (-5))]) hmem
  exact ⟨(validation_details_complete multiViolationBody).2.1 (by decide),
    h.1 (by decide), h.2.2 (by decide)⟩

/-- Claim C5: applying a transaction list and then its pointwise inverse
(each credit swapped with a debit of equal amount) returns the running
balance exactly to the initial value. -/
theorem roundtrip_inverse (init : ℚ) (txs : List Txn) :
    runTxns (runTxns init txs) (txs.map invTx) = init := by
  rw [runTxns_delta, runTxns_delta, List.map_map]
  have h : ∀ l : List Txn, (l.map (txnDelta ∘ invTx)).sum = -(l.map txnDelta).sum := by
    intro l
    induction l with
    | nil => simp
    | cons t rest ih =>
      simp only [List.map_cons, List.sum_cons, ih, Function.comp_apply, delta_invTx]
      ring
  rw [h]
  ring

/-- Claim C6: the calculator processes the transactions strictly in
array order (the fold steps through the head first), and the final
balance does not change under any permutation of the list. -/
theorem order_and_permutation (init : ℚ) (t : Txn) (rest txs txs' : List Txn)
    (h : txs.Perm txs') :
    runTxns init (t :: rest) = runTxns (applyTx init t) rest ∧
    runTxns init txs = runTxns init txs' := by
  refine ⟨rfl, ?_⟩
  rw [runTxns_delta, runTxns_delta, List.Perm.sum_eq (h.map txnDelta)]

theorem order_and_permutation_check :
    runTxns 1000 [⟨"debit", 800⟩, ⟨"credit", 500⟩] =
      runTxns (applyTx 1000 ⟨"debit", 800⟩) [⟨"credit", 500⟩] ∧
    runTxns 1000 [⟨"debit", 800⟩, ⟨"credit", 500⟩] =
      runTxns 1000 [⟨"credit", 500⟩, ⟨"debit", 800⟩] :=
  order_and_permutation 1000 ⟨"debit", 800⟩ [⟨"credit", 500⟩]
    [⟨"debit", 800⟩, ⟨"credit", 500⟩] [⟨"credit", 500⟩, ⟨"debit", 800⟩]
    (List.Perm.swap (⟨"credit", 500⟩ : Txn) (⟨"debit", 800⟩ : Txn) [])

/-- Claim C7: a valid request whose debits exceed the available balance
is neither clamped nor rejected: the endpoint answers with the exact
negative sum as final balance and the overdraft status 2. -/
theorem overdraft_reported (init : ℚ) (txs : List Txn) (hne : txs ≠ [])
    (hv : ∀ t ∈ txs, (t.type = "credit" ∨ t.type = "debit") ∧ 0 ≤ t.amount)
    (hneg : init + sumCredits txs - sumDebits txs < 0) :
    postCalculateBalance (requestJson init txs) =
      .ok (init + sumCredits txs - sumDebits txs) 2 := by
  rw [post_requestJson init txs hne hv, runTxns_closed]
  simp [statusOf, not_le.mpr hneg]

theorem overdraft_reported_check :
    postCalculateBalance (requestJson 1000 [⟨"debit", 1500⟩]) = .ok (-500) 2 := by
  have h := overdraft_reported 1000 [⟨"debit", 1500⟩] (by simp)
    (by intro t ht; simp only [List.mem_cons, List.not_mem_nil, or_false] at ht
        subst ht; exact ⟨Or.inr rfl, by norm_num⟩)
    (by have hc : sumCredits [⟨"debit", 1500⟩] = 0 := by simp [sumCredits, List.filter_cons]
        have hd : sumDebits [⟨"debit", 1500⟩] = 1500 := by
          simp [sumDebits, List.filter_cons]
        rw [hc, hd]; norm_num)
  have hc : sumCredits [⟨"debit", 1500⟩] = 0 := by simp [sumCredits, List.filter_cons]
  have hd : sumDebits [⟨"debit", 1500⟩] = 1500 := by simp [sumDebits, List.filter_cons]
  rw [h, hc, hd]
  norm_num

/-- Claim C8: an error raised inside the balance computation, after
validation passed, is caught by the handler and answered as a 500
response whose error field is Internal server error and whose message
carries the underlying failure message; the handler stays total. -/
theorem internal_error_caught (body : Json) (msg : String)
    (hv : calculateBalanceValidation body = [])
    (he : computeBalance body = .error msg) :
    postCalculateBalance body = .serverError "Internal server error" msg := by
  unfold postCalculateBalance
  rw [hv, he]
  rfl

theorem internal_error_caught_check :
    postCalculateBalance arrayBalanceBody =
      .serverError "Internal server error" "[DecimalError] Invalid argument" :=
  internal_error_caught arrayBalanceBody "[DecimalError] Invalid argument"
    (by decide) (by rfl)

/-- Claim C9: a request carrying numeric strings (initial balance "100",
amount "50.5") passes validation and is answered with the 200 result
computed from the strings' numeric values, not with a 400. -/
theorem numeric_string_accepted :
    postCalculateBalance stringBody = .ok (301 / 2) 1 := by
  have hib : getField stringBody "initialBalance" = .str "100" := rfl
  have hts : getField stringBody "transactions" =
      .arr [.obj [("type", .str "credit"), ("amount", .str "50.5")]] := rfl
  have hd1 : digitsToNat ['1', '0', '0'] = 100 := rfl
  have hd2 : digitsToNat ['5', '0'] = 50 := rfl
  have hd3 : digitsToNat ['5'] = 5 := rfl
  have hd0 : digitsToNat [] = 0 := rfl
  have hsp1 : splitParts "100".data = some ⟨false, ['1', '0', '0'], [], false⟩ := rfl
  have hsp2 : splitParts "50.5".data = some ⟨false, ['5', '0'], ['5'], true⟩ := rfl
  have hp1 : partsVal ⟨false, ['1', '0', '0'], [], false⟩ = 100 := by
    norm_num [partsVal, hd1, hd0]
  have hp2 : partsVal ⟨false, ['5', '0'], ['5'], true⟩ = 101 / 2 := by
    norm_num [partsVal, hd2, hd3]
  have hn1 : isNumericStr "100" = true := rfl
  have hn2 : isNumericStr "50.5" = true := rfl
  have hfm : floatMin0Val (.str "50.5") = true := by
    simp only [floatMin0Val, floatMin0Str, hsp2, hp2]
    norm_num
  have hgt : getField (.obj [("type", .str "credit"), ("amount", .str "50.5")]) "type" =
      .str "credit" := rfl
  have hga : getField (.obj [("type", .str "credit"), ("amount", .str "50.5")]) "amount" =
      .str "50.5" := rfl
  have hval : calculateBalanceValidation stringBody = [] := by
    simp [calculateBalanceValidation, hib, hts, wildcardItems, arrItems, flatErrs,
      typeErrs, amountErrs, fieldCheckErrs, hgt, hga, isNumericVal,
      isArrayVal, notEmptyVal, isInCreditDebit, hn1, hn2, hfm]
  have hnd1 : newDecimal (.str "100") = .ok 100 := by
    simp [newDecimal, hsp1, hp1]
  have hnd2 : newDecimal (.str "50.5") = .ok (101 / 2) := by
    simp [newDecimal, hsp2, hp2]
  have hcb : computeBalance stringBody = .ok (301 / 2) := by
    unfold computeBalance
    rw [hib, hnd1, hts]
    simp [runTxnsJson, applyTxn, getField, lookupField, hnd2, isStrEq]
    norm_num
  unfold postCalculateBalance
  rw [hval, hcb]
  have hst : statusOf (301 / 2) = 1 := by norm_num [statusOf]
  simp [hst]

/-- Claim C10: a transaction whose type is neither credit nor debit
leaves the running balance unchanged: the loop body applies neither
branch and reports no error. -/
theorem unknown_type_noop (bal : ℚ) (t : Txn)
    (h1 : t.type ≠ "credit") (h2 : t.type ≠ "debit") :
    applyTx bal t = bal := by
  simp [applyTx, h1, h2]

theorem unknown_type_noop_check : applyTx 100 ⟨"transfer", 5⟩ = 100 :=
  unknown_type_noop 100 ⟨"transfer", 5⟩ (by decide) (by decide)

end OneAccounting
